import Mathlib

/-
Verification of the svd parser core (lib.rs) against its specification.

The embedding models Rust's three-way outcome of running a parser:
a returned value (`ok`), a propagated typed error (`err`, the `Result`
error channel), and a process abort (`panic`, produced by the crate's
redefined `try!` macro which expands to `.expect(..)`, by `assert!` /
`assert_eq!`, by `unreachable!()` and by `Option/Result::unwrap`).
Machine integers (`u32`) are modelled as `Nat` with an explicit
`< 2^32` bound enforced at decode time, which is where the source
enforces it (integer parsing fails on overflow).

Helper modules of the crate (`parse`, `error`, `svd::*`) are not part
of the given source tree; definitions taken from them are modelled
from the specification and say so in their doc comments.
-/

namespace Svd

/-- The xmltree `Element`: tag name, attributes, ordered children, optional
text content. Attribute maps are modelled as association lists with
first-match lookup. -/
inductive Element : Type where
  | mk (name : String) (attributes : List (String × String))
       (children : List Element) (text : Option String)

def Element.name : Element → String
  | .mk n _ _ _ => n

def Element.attributes : Element → List (String × String)
  | .mk _ a _ _ => a

def Element.children : Element → List Element
  | .mk _ _ c _ => c

def Element.text : Element → Option String
  | .mk _ _ _ t => t

/-- xmltree `Element::get_child`: the first child whose tag name matches. -/
def Element.get_child (e : Element) (k : String) : Option Element :=
  e.children.find? fun c => c.name == k

/-- xmltree attribute lookup (`tree.attributes.get(..)`). -/
def Element.getAttr (e : Element) (k : String) : Option String :=
  (e.attributes.find? fun p => p.1 == k).map fun p => p.2

/-- Typed error kinds of the crate's `error` module. Modelled from the spec:
`error`/`SVDErrorKind` is not under `src/`; the spec (§7) names the kinds
(missing required tag carrying parent node and tag name, unexpected tag
carrying node and expected tag, invalid scalar, free-form context). -/
inductive SVDErrorKind : Type where
  | other (msg : String)
  | missingTag (parent : Element) (tag : String)
  | notExpectedTag (node : Element) (expected : String)
  | emptyTag (node : Element)
  | invalidScalar (node : Element)

/-- Modelled from the spec: `SVDError` (crate `error` module, not under
`src/`) is either a bare kind or, through the failure crate's
`.context(kind)`, a kind wrapping the causing error. -/
inductive SVDError : Type where
  | fromKind (k : SVDErrorKind)
  | withCtx (k : SVDErrorKind) (cause : SVDError)

/-- Outcome of running a fallible, possibly panicking Rust computation. -/
inductive PResult (α : Type) : Type where
  | ok (a : α)
  | err (e : SVDError)
  | panic (msg : String)

def PResult.bind {α β : Type} : PResult α → (α → PResult β) → PResult β
  | .ok a, f => f a
  | .err e, _ => .err e
  | .panic m, _ => .panic m

def PResult.map {α β : Type} (f : α → β) : PResult α → PResult β
  | .ok a => .ok (f a)
  | .err e => .err e
  | .panic m => .panic m

instance : Monad PResult where
  pure := PResult.ok
  bind := PResult.bind
  map := PResult.map

/-- failure crate `ResultExt::context` followed by `.into()`: a typed error
is wrapped with a context kind; values and panics pass through. -/
def PResult.context {α : Type} (r : PResult α) (k : SVDErrorKind) : PResult α :=
  match r with
  | .err e => .err (.withCtx k e)
  | x => x

/-- Rust `Result::expect(msg)` (the crate redefines `try!` to this):
a typed error becomes a panic carrying the message. -/
def PResult.expectP {α : Type} (r : PResult α) (msg : String) : PResult α :=
  match r with
  | .ok a => .ok a
  | .err _ => .panic msg
  | .panic m => .panic m

/-- Rust `Result::unwrap`. -/
def PResult.unwrapP {α : Type} (r : PResult α) : PResult α :=
  r.expectP "called Result::unwrap on an Err value"

/-- Rust `Option::expect(msg)` (the other use of the crate's `try!`). -/
def optExpect {α : Type} : Option α → String → PResult α
  | some a, _ => .ok a
  | none, msg => .panic msg

/-- `collect::<Result<Vec<_>, _>>()` over a mapped iterator: the first
error or panic aborts, otherwise the ordered list of values. -/
def mapPM {α β : Type} (f : α → PResult β) : List α → PResult (List β)
  | [] => .ok []
  | a :: rest => do
    let b ← f a
    let bs ← mapPM f rest
    pure (b :: bs)

/-- Whether `pat` occurs at the head of `s` (substring search helper). -/
def leadMatch : List Char → List Char → Bool
  | [], _ => true
  | _ :: _, [] => false
  | p :: ps, c :: cs => p == c && leadMatch ps cs

/-- Whether `pat` occurs anywhere in `s` (Rust `str::contains` on a
string pattern). -/
def containsSub (pat : List Char) : List Char → Bool
  | [] => leadMatch pat []
  | c :: cs => leadMatch pat (c :: cs) || containsSub pat cs

/-- Rust `name.contains("%s")`. -/
def containsPctS (s : String) : Bool :=
  containsSub ('%' :: 's' :: []) s.data

/-- Split a character list at every occurrence of `sep` (Rust
`str::split(sep)` semantics: n separators yield n+1 pieces). -/
def splitCL (sep : Char) : List Char → List (List Char)
  | [] => [[]]
  | c :: cs =>
    if c = sep then [] :: splitCL sep cs
    else
      match splitCL sep cs with
      | [] => [[c]]
      | t :: ts => (c :: t) :: ts

/-- Value of a decimal digit. -/
def decDigit (c : Char) : Option Nat :=
  if '0' ≤ c ∧ c ≤ '9' then some (c.toNat - '0'.toNat) else none

/-- Value of a hexadecimal digit. -/
def hexDigit (c : Char) : Option Nat :=
  if '0' ≤ c ∧ c ≤ '9' then some (c.toNat - '0'.toNat)
  else if 'a' ≤ c ∧ c ≤ 'f' then some (c.toNat - 'a'.toNat + 10)
  else if 'A' ≤ c ∧ c ≤ 'F' then some (c.toNat - 'A'.toNat + 10)
  else none

/-- Accumulate digit values in the given base; any bad digit fails. -/
def digitsVal (digit : Char → Option Nat) (base : Nat) : List Char → Nat → Option Nat
  | [], acc => some acc
  | c :: cs, acc =>
    match digit c with
    | some d => digitsVal digit base cs (acc * base + d)
    | none => none

/-- Digit-string value in a base; the empty string fails. -/
def radixVal (digit : Char → Option Nat) (base : Nat) (cs : List Char) : Option Nat :=
  match cs with
  | [] => none
  | _ :: _ => digitsVal digit base cs 0

/-- Reject values that do not fit in a `u32`. -/
def boundU32 : Option Nat → Option Nat
  | some v => if v < 4294967296 then some v else none
  | none => none

/-- Decimal-only string-to-`u32` conversion (Rust `str::parse::<u32>()`). -/
def parseU32Dec (s : String) : Option Nat :=
  boundU32 (radixVal decDigit 10 s.data)

/-- Modelled from the spec: the integer leaf decoder accepts hex, decimal
and binary forms (§2, "unsigned 32-bit integer in hex/decimal/binary
form"); `0x`/`0X` prefix hexadecimal, `0b`/`#` prefix binary, otherwise
decimal. -/
def parseU32String (s : String) : Option Nat :=
  match s.data with
  | '0' :: 'x' :: rest => boundU32 (radixVal hexDigit 16 rest)
  | '0' :: 'X' :: rest => boundU32 (radixVal hexDigit 16 rest)
  | '0' :: 'b' :: rest => boundU32 (radixVal decDigit 2 rest)
  | '#' :: rest => boundU32 (radixVal decDigit 2 rest)
  | cs => boundU32 (radixVal decDigit 10 cs)

/-- Modelled from the spec: `parse::get_text` (module `parse`, not under
`src/`) reads a node's text content, failing with a typed error when the
node has none (§4.1: a present child's unreadable text is a decode
error). -/
def parse.get_text (e : Element) : PResult String :=
  match e.text with
  | some s => .ok s
  | none => .err (.fromKind (.emptyTag e))

/-- Modelled from the spec: `parse::u32` (module `parse`, not under
`src/`), the unsigned-integer leaf decoder; fails with a typed error when
the node is malformed (§2). -/
def parse.u32 (e : Element) : PResult Nat := do
  let s ← parse.get_text e
  match parseU32String s with
  | some v => pure v
  | none => PResult.err (.fromKind (.invalidScalar e))

/-- Modelled from the spec: `parse::get_child_elem` (module `parse`, not
under `src/`) fetches a required child, failing with a missing-tag error
carrying the parent and the tag name (§4.1). -/
def parse.get_child_elem (n : String) (e : Element) : PResult Element :=
  match e.get_child n with
  | some c => .ok c
  | none => .err (.fromKind (.missingTag e n))

/-- Modelled from the spec: `parse::get_child_u32` (module `parse`, not
under `src/`): required child decoded as an integer leaf. -/
def parse.get_child_u32 (n : String) (e : Element) : PResult Nat := do
  parse.u32 (← parse.get_child_elem n e)

/-- Modelled from the spec: `parse::optional` (module `parse`, not under
`src/`): an absent child yields `none`; a present child's decode failure
propagates, per the propagation policy of §7 (every failure detected in a
leaf or child parser propagates immediately). -/
def parse.optional {α : Type} (n : String) (e : Element) (f : Element → PResult α) :
    PResult (Option α) :=
  match e.get_child n with
  | none => .ok none
  | some c => (f c).map some

/-- Inclusive integer range `a..=b` rendered as decimal strings. -/
def natRangeStrings (a b : Nat) : List String :=
  (List.range (b + 1 - a)).map fun i => Nat.repr (a + i)

/-- Inclusive character range rendered as one-character strings. -/
def charRangeStrings (a b : Char) : List String :=
  (List.range (b.toNat + 1 - a.toNat)).map fun i => String.mk [Char.ofNat (a.toNat + i)]

/-- Split a token at its first dash, if any. -/
def breakAtDash : List Char → Option (List Char × List Char)
  | [] => none
  | c :: cs =>
    if c = '-' then some ([], cs)
    else
      match breakAtDash cs with
      | some (a, b) => some (c :: a, b)
      | none => none

/-- Expansion of one `dimIndex` token: `a-b` with both sides numeric is the
inclusive integer range rendered as strings, `a-b` with two single
characters is the inclusive character range, any other token stands for
itself. -/
def expandTok (cs : List Char) : List String :=
  match breakAtDash cs with
  | none => [String.mk cs]
  | some (a, b) =>
    match radixVal decDigit 10 a, radixVal decDigit 10 b with
    | some na, some nb => natRangeStrings na nb
    | _, _ =>
      match a, b with
      | [ca], [cb] => charRangeStrings ca cb
      | _, _ => [String.mk cs]

/-- Modelled from the spec: `parse::dim_index` (module `parse`, not under
`src/`) decodes a `dimIndex` text into the ordered index-label list:
comma-separated tokens, a token of the form `a-b` expanding to the
inclusive numeric or alphabetic range rendered as strings, any other
token taken literally (§4.5, §8). -/
def parse.dim_index (text : String) : List String :=
  ((splitCL ',' text.data).map expandTok).flatten

/-- Modelled from the spec: the access-permission enumeration decoded by
the external `Access` leaf decoder (§2), the usual SVD access strings. -/
inductive Access : Type where
  | readOnly
  | readWrite
  | writeOnly
  | writeOnce
  | readWriteOnce

/-- Modelled from the spec: `Access::parse` (module `svd::access`, not
under `src/`) decodes the node text into the access enumeration, failing
with a typed error on any other text (§2: fails if the node is
malformed). -/
def Access.parse (t : Element) : PResult Access := do
  let s ← parse.get_text t
  if s = "read-only" then pure Access.readOnly
  else if s = "read-write" then pure Access.readWrite
  else if s = "write-only" then pure Access.writeOnly
  else if s = "writeOnce" then pure Access.writeOnce
  else if s = "read-writeOnce" then pure Access.readWriteOnce
  else PResult.err (.fromKind (.invalidScalar t))

/-- Modelled from the spec: the bit-range descriptor is an out-of-scope
leaf value (§1, §6); its internal format is unspecified there, so it is
modelled as the captured node. -/
structure BitRange : Type where
  node : Element

/-- Modelled from the spec: `BitRange::parse` (module `svd::bitrange`, not
under `src/`), an external leaf decoder whose failure conditions the spec
leaves unspecified; modelled as always decoding. -/
def BitRange.parse (t : Element) : PResult BitRange :=
  .ok ⟨t⟩

/-- Modelled from the spec: the write-constraint descriptor, an
out-of-scope leaf value (§1, §6), modelled as the captured node. -/
structure WriteConstraint : Type where
  node : Element

/-- Modelled from the spec: `WriteConstraint::parse` (module
`svd::writeconstraint`, not under `src/`), an external leaf decoder whose
failure conditions the spec leaves unspecified; modelled as always
decoding. -/
def WriteConstraint.parse (t : Element) : PResult WriteConstraint :=
  .ok ⟨t⟩

/-- Modelled from the spec: an enumerated-value table, an out-of-scope
leaf value (§1, §6; a table may legally be empty, §4.6), modelled as the
captured node. -/
structure EnumeratedValues : Type where
  node : Element

/-- Modelled from the spec: `EnumeratedValues::parse` (module
`svd::enumeratedvalues`, not under `src/`), an external leaf decoder
whose failure conditions the spec leaves unspecified; modelled as always
decoding. -/
def EnumeratedValues.parse (t : Element) : PResult EnumeratedValues :=
  .ok ⟨t⟩

/-- Modelled from the spec: the CPU descriptor, an out-of-scope leaf value
(§1, §6), modelled as the captured node. -/
structure Cpu : Type where
  node : Element

/-- Modelled from the spec: `Cpu::parse` (module `svd::cpu`, not under
`src/`), an external leaf decoder whose failure conditions the spec
leaves unspecified; modelled as always decoding. -/
def Cpu.parse (t : Element) : PResult Cpu :=
  .ok ⟨t⟩

/-- Modelled from the spec: the interrupt descriptor (name, optional
description, value), decoded by the external `Interrupt` leaf decoder
(§2), failing with a typed error when malformed. -/
structure Interrupt : Type where
  name : String
  description : Option String
  value : Nat

/-- `ElementExt::get_child_text_opt`: text of the named child, `None` when
the child is absent, a propagated decode error when the child exists but
its text cannot be read. -/
def Element.get_child_text_opt (e : Element) (k : String) : PResult (Option String) :=
  match e.get_child k with
  | some child => (parse.get_text child).map some
  | none => .ok none

/-- `ElementExt::get_child_text`: required-child text; absence is a
missing-tag error carrying the parent node and the tag name. -/
def Element.get_child_text (e : Element) (k : String) : PResult String := do
  match ← e.get_child_text_opt k with
  | some s => pure s
  | none => PResult.err (.fromKind (.missingTag e k))

/-- Modelled from the spec: `Interrupt::parse` (module `svd::interrupt`,
not under `src/`): required name, optional description, required integer
value (§2). -/
def Interrupt.parse (t : Element) : PResult Interrupt := do
  let name ← t.get_child_text "name"
  let description ← t.get_child_text_opt "description"
  let value ← parse.get_child_u32 "value" t
  pure { name := name, description := description, value := value }

/-- The source's `tree.get_child(k).map(|t| try!(parse::u32(t)))` pattern:
an optional integer child read through the panicking `try!` macro. -/
def optTryU32 (tree : Element) (k : String) (msg : String) : PResult (Option Nat) :=
  match tree.get_child k with
  | none => .ok none
  | some t => ((parse.u32 t).expectP msg).map some

/-- One bit-field within a register (struct `Field`). -/
structure Field : Type where
  name : String
  description : Option String
  bit_range : BitRange
  access : Option Access
  enumerated_values : List EnumeratedValues
  write_constraint : Option WriteConstraint

/-- Body of `Field::parse` after the name has been read (`Field::_parse`). -/
def Field._parse (tree : Element) (name : String) : PResult Field := do
  let description ← tree.get_child_text_opt "description"
  let bit_range ← BitRange.parse tree
  let access ← parse.optional "access" tree Access.parse
  let enumerated_values ←
    mapPM EnumeratedValues.parse (tree.children.filter fun t => t.name == "enumeratedValues")
  let write_constraint ← parse.optional "writeConstraint" tree WriteConstraint.parse
  pure { name := name, description := description, bit_range := bit_range,
         access := access, enumerated_values := enumerated_values,
         write_constraint := write_constraint }

/-- `Field::parse`: tag check, name read, body wrapped with the field's
name for context. -/
def Field.parse (tree : Element) : PResult Field :=
  if tree.name ≠ "field" then
    .err (.fromKind (.notExpectedTag tree "field"))
  else do
    let name ← tree.get_child_text "name"
    (Field._parse tree name).context (.other ("In field `" ++ name ++ "`"))

/-- Shared register attributes (struct `RegisterInfo`). -/
structure RegisterInfo : Type where
  name : String
  alternate_group : Option String
  alternate_register : Option String
  derived_from : Option String
  description : String
  address_offset : Nat
  size : Option Nat
  access : Option Access
  reset_value : Option Nat
  reset_mask : Option Nat
  fields : Option (List Field)
  write_constraint : Option WriteConstraint

/-- Array-expansion descriptor (struct `RegisterClusterArrayInfo`). -/
structure RegisterClusterArrayInfo : Type where
  dim : Nat
  dim_increment : Nat
  dim_index : Option (List String)

/-- Body of `RegisterInfo::parse` after the name has been read
(`RegisterInfo::_parse`). -/
def RegisterInfo._parse (tree : Element) (name : String) : PResult RegisterInfo := do
  let alternate_group ← tree.get_child_text_opt "alternateGroup"
  let alternate_register ← tree.get_child_text_opt "alternateRegister"
  let derived_from := tree.getAttr "derivedFrom"
  let description ← tree.get_child_text "description"
  let address_offset ← parse.get_child_u32 "addressOffset" tree
  let size ← optTryU32 tree "size" "lib.rs:359 parse::u32(t)"
  let access ← parse.optional "access" tree Access.parse
  let reset_value ← parse.optional "resetValue" tree parse.u32
  let reset_mask ← parse.optional "resetMask" tree parse.u32
  let fields ←
    match tree.get_child "fields" with
    | some fields => (mapPM Field.parse fields.children).map some
    | none => pure none
  let write_constraint ← parse.optional "writeConstraint" tree WriteConstraint.parse
  pure { name := name, alternate_group := alternate_group,
         alternate_register := alternate_register, derived_from := derived_from,
         description := description, address_offset := address_offset,
         size := size, access := access, reset_value := reset_value,
         reset_mask := reset_mask, fields := fields,
         write_constraint := write_constraint }

/-- `RegisterInfo::parse`: name read, body wrapped with the register's
name for context. -/
def RegisterInfo.parse (tree : Element) : PResult RegisterInfo := do
  let name ← tree.get_child_text "name"
  (RegisterInfo._parse tree name).context (.other ("In register `" ++ name ++ "`"))

/-- `RegisterClusterArrayInfo::parse`: `dim` as a decimal `str::parse`
with "<dim> invalid" context, `dimIncrement` through the panicking `try!`
macro, `dimIndex` decoded by `parse::dim_index` (its text read through
`try!`). -/
def RegisterClusterArrayInfo.parse (tree : Element) : PResult RegisterClusterArrayInfo := do
  let dimText ← tree.get_child_text "dim"
  let dim ←
    (match parseU32Dec dimText with
     | some v => PResult.ok v
     | none => PResult.err (.fromKind (.other ("invalid digit found in string: " ++ dimText)))
    ).context (.other "<dim> invalid")
  let dim_increment ←
    match tree.get_child "dimIncrement" with
    | none => PResult.panic "lib.rs:384 tree.get_child(dimIncrement)"
    | some t => (parse.u32 t).expectP "lib.rs:385 parse::u32(t)"
  let dim_index ←
    match tree.get_child "dimIndex" with
    | none => PResult.ok none
    | some c => do
        let s ← optExpect c.text "lib.rs:388 c.text.as_ref()"
        pure (some (parse.dim_index s))
  pure { dim := dim, dim_increment := dim_increment, dim_index := dim_index }

/-- Tagged single-or-array register (enum `Register`). -/
inductive Register : Type where
  | Single (info : RegisterInfo)
  | Array (info : RegisterInfo) (array_info : RegisterClusterArrayInfo)

/-- `Register::parse`: tag assertion, info parse, then — when a
`dimIncrement` child is present — array-info parse and the two
`assert!`/`assert_eq!` checks (name placeholder, index-list length)
before the Array variant is produced. -/
def Register.parse (tree : Element) : PResult Register :=
  if tree.name ≠ "register" then
    .panic "assertion failed: tree.name == register"
  else do
    let info ← RegisterInfo.parse tree
    if (tree.get_child "dimIncrement").isSome then do
      let array_info ← RegisterClusterArrayInfo.parse tree
      if containsPctS info.name then
        match array_info.dim_index with
        | some indices =>
          if array_info.dim = indices.length then
            pure (Register.Array info array_info)
          else .panic "assertion failed: array_info.dim == indices.len()"
        | none => pure (Register.Array info array_info)
      else .panic "assertion failed: info.name.contains(%s)"
    else pure (Register.Single info)

/-- The `either::Either` sum type used for interleaved register/cluster
children. -/
inductive Either (α β : Type) : Type where
  | left (a : α)
  | right (b : β)

end Svd

mutual

/-- Shared register-block attributes (struct `ClusterInfo`), mutually
recursive with `Cluster` through the ordered register/cluster child
list. -/
inductive Svd.ClusterInfo : Type where
  | mk (name : String) (description : String) (header_struct_name : Option String)
       (address_offset : Nat) (size : Option Nat) (access : Option Svd.Access)
       (reset_value : Option Nat) (reset_mask : Option Nat)
       (children : List (Svd.Either Svd.Register Svd.ClusterVariant))

/-- Tagged single-or-array cluster (enum `Cluster`). Named
`ClusterVariant` in Lean because the bare name is introduced as an
abbreviation below. -/
inductive Svd.ClusterVariant : Type where
  | Single (info : Svd.ClusterInfo)
  | Array (info : Svd.ClusterInfo) (array_info : Svd.RegisterClusterArrayInfo)

end

namespace Svd

/-- The source's `Cluster` enum. -/
abbrev Cluster : Type := ClusterVariant

def ClusterInfo.name : ClusterInfo → String
  | .mk n _ _ _ _ _ _ _ _ => n

def ClusterInfo.description : ClusterInfo → String
  | .mk _ d _ _ _ _ _ _ _ => d

def ClusterInfo.header_struct_name : ClusterInfo → Option String
  | .mk _ _ h _ _ _ _ _ _ => h

def ClusterInfo.address_offset : ClusterInfo → Nat
  | .mk _ _ _ a _ _ _ _ _ => a

def ClusterInfo.size : ClusterInfo → Option Nat
  | .mk _ _ _ _ s _ _ _ _ => s

def ClusterInfo.access : ClusterInfo → Option Access
  | .mk _ _ _ _ _ a _ _ _ => a

def ClusterInfo.reset_value : ClusterInfo → Option Nat
  | .mk _ _ _ _ _ _ r _ _ => r

def ClusterInfo.reset_mask : ClusterInfo → Option Nat
  | .mk _ _ _ _ _ _ _ r _ => r

def ClusterInfo.children : ClusterInfo → List (Either Register Cluster)
  | .mk _ _ _ _ _ _ _ _ c => c

/-- The filter a `<cluster>` applies to its children before dispatching
them (`t.name == "register" || t.name == "cluster"`). -/
def rcFilter (es : List Element) : List Element :=
  es.filter fun t => t.name == "register" || t.name == "cluster"

/-- The message of Rust's `unreachable!()` panic, raised by
`cluster_register_parse` on any other tag. -/
def unreachableMsg : String :=
  "internal error: entered unreachable code"

end Svd

mutual

/-- Recursion core realizing `Cluster::parse` (tag assertion,
`ClusterInfo::parse` body inlined, then the `dimIncrement` array logic
with its `assert!`/`assert_eq!` checks); the wrappers below restate it in
the source's shape and are proved equal to it. -/
def Svd.clusterParseCore : Svd.Element → Svd.PResult Svd.Cluster
  | t@(Svd.Element.mk _ _ ch _) =>
    if t.name ≠ "cluster" then .panic "assertion failed: tree.name == cluster" else do
    let info ← do
      let name ← t.get_child_text "name"
      let description ← t.get_child_text "description"
      let header_struct_name ← t.get_child_text_opt "headerStructName"
      let address_offset ← Svd.parse.get_child_u32 "addressOffset" t
      let size ← Svd.optTryU32 t "size" "lib.rs:325 parse::u32(t)"
      let access ← Svd.parse.optional "access" t Svd.Access.parse
      let reset_value ← Svd.parse.optional "resetValue" t Svd.parse.u32
      let reset_mask ← Svd.parse.optional "resetMask" t Svd.parse.u32
      let children ← Svd.crFilteredCore ch
      pure (Svd.ClusterInfo.mk name description header_struct_name address_offset
        size access reset_value reset_mask children)
    if (t.get_child "dimIncrement").isSome then do
      let array_info ← Svd.RegisterClusterArrayInfo.parse t
      if Svd.containsPctS info.name then
        match array_info.dim_index with
        | some indices =>
          if array_info.dim = indices.length then
            pure (Svd.ClusterVariant.Array info array_info)
          else .panic "assertion failed: array_info.dim == indices.len()"
        | none => pure (Svd.ClusterVariant.Array info array_info)
      else .panic "assertion failed: info.name.contains(%s)"
    else pure (Svd.ClusterVariant.Single info)

/-- Recursion core realizing the `<cluster>` child traversal: the
filter-to-register-or-cluster composed with the per-child dispatcher
(`cluster_register_parse`), fused so the recursion is structural. -/
def Svd.crFilteredCore : List Svd.Element → Svd.PResult (List (Svd.Either Svd.Register Svd.Cluster))
  | [] => .ok []
  | c :: rest =>
    if c.name = "register" then do
      let r ← Svd.PResult.map Svd.Either.left (Svd.Register.parse c)
      let xs ← Svd.crFilteredCore rest
      pure (r :: xs)
    else if c.name = "cluster" then do
      let r ← Svd.PResult.map Svd.Either.right (Svd.clusterParseCore c)
      let xs ← Svd.crFilteredCore rest
      pure (r :: xs)
    else Svd.crFilteredCore rest

end

namespace Svd

/-- `Cluster::parse` in the source's shape (defined through the recursion
core; `Cluster.parse_eq_core` and `crFilteredCore_eq` below relate the
two). -/
def Cluster.parse (tree : Element) : PResult Cluster :=
  clusterParseCore tree

/-- `cluster_register_parse`: dispatch purely on the tag name; any other
tag hits `unreachable!()`. -/
def cluster_register_parse (tree : Element) : PResult (Either Register Cluster) :=
  if tree.name = "register" then
    PResult.map Either.left (Register.parse tree)
  else if tree.name = "cluster" then
    PResult.map Either.right (Cluster.parse tree)
  else .panic unreachableMsg

/-- `ClusterInfo::parse` in the source's shape: the common attributes plus
the ordered child list obtained by filtering to register/cluster children
and dispatching each (`ClusterInfo.parse_eq` below proves it computes
what the recursion core computes). -/
def ClusterInfo.parse (tree : Element) : PResult ClusterInfo := do
  let name ← tree.get_child_text "name"
  let description ← tree.get_child_text "description"
  let header_struct_name ← tree.get_child_text_opt "headerStructName"
  let address_offset ← parse.get_child_u32 "addressOffset" tree
  let size ← optTryU32 tree "size" "lib.rs:325 parse::u32(t)"
  let access ← parse.optional "access" tree Access.parse
  let reset_value ← parse.optional "resetValue" tree parse.u32
  let reset_mask ← parse.optional "resetMask" tree parse.u32
  let children ← mapPM cluster_register_parse (rcFilter tree.children)
  pure (ClusterInfo.mk name description header_struct_name address_offset
    size access reset_value reset_mask children)

/-- Rust `Option::or`. -/
def optOr {α : Type} : Option α → Option α → Option α
  | some a, _ => some a
  | none, b => b

/-- One peripheral instance (struct `Peripheral`). -/
structure Peripheral : Type where
  name : String
  group_name : Option String
  description : Option String
  base_address : Nat
  interrupt : List Interrupt
  registers : Option (List (Either Register Cluster))
  derived_from : Option String

/-- `Peripheral::derive_from`: merge an under-specified peripheral with a
base; group name, description and register list fall back to the base
when unset, the interrupt list falls back only when empty. -/
def Peripheral.derive_from (self other : Peripheral) : Peripheral :=
  { self with
    group_name := optOr self.group_name other.group_name,
    description := optOr self.description other.description,
    registers := optOr self.registers other.registers,
    interrupt := if self.interrupt.isEmpty then other.interrupt else self.interrupt }

/-- Body of `Peripheral::parse` after the name has been read
(`Peripheral::_parse`). The base address goes through the panicking
`try!` macro twice (child lookup and integer decode). -/
def Peripheral._parse (tree : Element) (name : String) : PResult Peripheral := do
  let group_name ← tree.get_child_text_opt "groupName"
  let description ← tree.get_child_text_opt "description"
  let base_address ← do
    let el ← optExpect (tree.get_child "baseAddress") "lib.rs:185 tree.get_child(baseAddress)"
    (parse.u32 el).expectP "lib.rs:185 parse::u32(...)"
  let interrupt ← mapPM
    (fun p => (Interrupt.parse p.2).context (.other ("Parsing interrupt #" ++ Nat.repr p.1)))
    ((tree.children.filter fun t => t.name == "interrupt").enum)
  let registers ←
    match tree.get_child "registers" with
    | some registers => PResult.map some (mapPM cluster_register_parse registers.children)
    | none => pure none
  let derived_from := tree.getAttr "derivedFrom"
  pure { name := name, group_name := group_name, description := description,
         base_address := base_address, interrupt := interrupt,
         registers := registers, derived_from := derived_from }

/-- `Peripheral::parse`: tag check, name read, body wrapped with the
peripheral's name for context. -/
def Peripheral.parse (tree : Element) : PResult Peripheral :=
  if tree.name ≠ "peripheral" then
    .err (.fromKind (.notExpectedTag tree "peripheral"))
  else do
    let name ← tree.get_child_text "name"
    (Peripheral._parse tree name).context (.other ("In peripheral `" ++ name ++ "`"))

/-- Device-wide register default properties (struct `Defaults`). -/
structure Defaults : Type where
  size : Option Nat
  reset_value : Option Nat
  reset_mask : Option Nat
  access : Option Access

/-- `Defaults::parse`: optional integer leaves read through the panicking
`try!` macro and the optional access decode finished with `.unwrap()`;
the function has no typed-error outcome. -/
def Defaults.parse (tree : Element) : PResult Defaults := do
  let size ← optTryU32 tree "size" "lib.rs:473 parse::u32(t)"
  let reset_value ← optTryU32 tree "resetValue" "lib.rs:475 parse::u32(t)"
  let reset_mask ← optTryU32 tree "resetMask" "lib.rs:477 parse::u32(t)"
  let access ← (parse.optional "access" tree Access.parse).unwrapP
  pure { size := size, reset_value := reset_value, reset_mask := reset_mask,
         access := access }

/-- The whole chip description (struct `Device`). -/
structure Device : Type where
  name : String
  cpu : Option Cpu
  peripherals : List Peripheral
  defaults : Defaults

/-- `Device::parse`: the `Option Element` argument models the output of
the external XML tree abstraction on the input text buffer (`none` for
input that is not well-formed XML, which the source's `try!` turns into a
panic); the device name read also goes through `try!`. -/
def Device.parse (svd : Option Element) : PResult Device := do
  let tree ← optExpect svd "lib.rs:122 Element::parse(svd.as_bytes())"
  let name ← (tree.get_child_text "name").expectP "lib.rs:125 tree.get_child_text(name)"
  let cpu ←
    match tree.get_child "cpu" with
    | some c => PResult.map some (Cpu.parse c)
    | none => pure none
  let peripherals ← do
    let peris ← parse.get_child_elem "peripherals" tree
    mapPM Peripheral.parse peris.children
  let defaults ← Defaults.parse tree
  pure { name := name, cpu := cpu, peripherals := peripherals, defaults := defaults }

/-- Public entry point `parse`: parses the contents of an SVD file. -/
def parse (xml : Option Element) : PResult Device :=
  Device.parse xml

/-! Concrete input elements used by the claim witnesses. -/

/-- A node with one extra trailing child. -/
def appendChild (t extra : Element) : Element :=
  Element.mk t.name t.attributes (t.children ++ [extra]) t.text

/-- Leaf element with text content. -/
def leafE (n tx : String) : Element := Element.mk n [] [] (some tx)

def intI1 : Interrupt := { name := "I1", description := none, value := 1 }

def periphA : Peripheral :=
  { name := "A", group_name := none, description := some "d", base_address := 0,
    interrupt := [], registers := none, derived_from := none }

def periphB : Peripheral :=
  { name := "B", group_name := some "g", description := some "other", base_address := 4,
    interrupt := [intI1], registers := none, derived_from := none }

/-- A peripheral element with no name child. -/
def periphNoNameE : Element := Element.mk "peripheral" [] [leafE "baseAddress" "0"] none

/-- A register element that is a well-formed two-element array. -/
def regArrE : Element := Element.mk "register" []
  [leafE "name" "R%s", leafE "description" "d", leafE "addressOffset" "0",
   leafE "dim" "2", leafE "dimIncrement" "4", leafE "dimIndex" "0,1"] none

/-- The value `Register::parse` produces on `regArrE`. -/
def regArrV : Register := Register.Array
  { name := "R%s", alternate_group := none, alternate_register := none,
    derived_from := none, description := "d", address_offset := 0, size := none,
    access := none, reset_value := none, reset_mask := none, fields := none,
    write_constraint := none }
  { dim := 2, dim_increment := 4, dim_index := some ["0", "1"] }

/-- A cluster element that is a well-formed three-element array. -/
def cluArrE : Element := Element.mk "cluster" []
  [leafE "name" "C%s", leafE "description" "d", leafE "addressOffset" "0",
   leafE "dim" "3", leafE "dimIncrement" "4", leafE "dimIndex" "3-5"] none

/-- The value `Cluster::parse` produces on `cluArrE`. -/
def cluArrV : Cluster := ClusterVariant.Array
  (ClusterInfo.mk "C%s" "d" none 0 none none none none [])
  { dim := 3, dim_increment := 4, dim_index := some ["3", "4", "5"] }

/-- A register element whose `<fields>` child is present but empty. -/
def regFieldsEmptyE : Element := Element.mk "register" []
  [leafE "name" "R", leafE "description" "d", leafE "addressOffset" "0",
   Element.mk "fields" [] [] none] none

/-- A register element with no `<fields>` child at all. -/
def regNoFieldsE : Element := Element.mk "register" []
  [leafE "name" "R", leafE "description" "d", leafE "addressOffset" "0"] none

/-- The info value parsed from `regFieldsEmptyE`. -/
def regFieldsEmptyV : RegisterInfo :=
  { name := "R", alternate_group := none, alternate_register := none,
    derived_from := none, description := "d", address_offset := 0, size := none,
    access := none, reset_value := none, reset_mask := none, fields := some [],
    write_constraint := none }

/-- The info value parsed from `regNoFieldsE`. -/
def regNoFieldsV : RegisterInfo :=
  { regFieldsEmptyV with fields := none }

/-- A document root whose `<size>` leaf is malformed. -/
def defBadRootE : Element := Element.mk "device" [] [leafE "size" "xyz"] none

/-- A document root with none of the four default-property children. -/
def emptyRootE : Element := Element.mk "device" [] [leafE "name" "D"] none

/-- A peripheral element whose `<baseAddress>` leaf is malformed. -/
def periphBadBaseE : Element :=
  Element.mk "peripheral" [] [leafE "name" "P", leafE "baseAddress" "zz"] none

/-- A peripheral element whose `<groupName>` child has unreadable text. -/
def periphGroupErrE : Element :=
  Element.mk "peripheral" []
    [leafE "name" "P", Element.mk "groupName" [] [] none] none

/-- An element with an unknown tag. -/
def fooE : Element := Element.mk "foo" [] [] none

/-- A single (non-array) cluster element with no register/cluster child. -/
def cluSimpleE : Element := Element.mk "cluster" []
  [leafE "name" "CL", leafE "description" "d", leafE "addressOffset" "0"] none

/-- The info value parsed from `cluSimpleE`. -/
def cluSimpleV : ClusterInfo := ClusterInfo.mk "CL" "d" none 0 none none none none []

/-- A cluster element with one register child (besides its scalar
leaves). -/
def cluC8E : Element := Element.mk "cluster" []
  [leafE "name" "CL", leafE "description" "d", leafE "addressOffset" "0",
   regNoFieldsE] none

/-- The info value parsed from `cluC8E`. -/
def cluC8V : ClusterInfo := ClusterInfo.mk "CL" "d" none 0 none none none none
  [Either.left (Register.Single regNoFieldsV)]

/-- A registers container interleaving a register and a cluster. -/
def regsC8E : Element := Element.mk "registers" [] [regNoFieldsE, cluSimpleE] none

/-- A peripheral element holding `regsC8E`. -/
def periphC8E : Element := Element.mk "peripheral" []
  [leafE "name" "P", leafE "baseAddress" "0", regsC8E] none

/-- The value `Peripheral::_parse` produces on `periphC8E`. -/
def periphC8V : Peripheral :=
  { name := "P", group_name := none, description := none, base_address := 0,
    interrupt := [],
    registers := some [Either.left (Register.Single regNoFieldsV),
      Either.right (ClusterVariant.Single cluSimpleV)],
    derived_from := none }

/-- A peripheral element whose registers container holds an
unknown-tagged child. -/
def periphC10E : Element := Element.mk "peripheral" []
  [leafE "name" "P", leafE "baseAddress" "0",
   Element.mk "registers" [] [fooE] none] none

/-! Helper lemmas about the outcome monad and the traversals. -/

theorem bindEq : @Bind.bind PResult _ = @PResult.bind := rfl

theorem pureEq : @Pure.pure PResult _ = @PResult.ok := rfl

theorem PResult.ok_bind {α β : Type} (a : α) (f : α → PResult β) :
    PResult.bind (.ok a) f = f a := rfl

theorem PResult.bind_assoc {α β γ : Type} (x : PResult α) (f : α → PResult β)
    (g : β → PResult γ) :
    PResult.bind (PResult.bind x f) g = PResult.bind x (fun a => PResult.bind (f a) g) := by
  cases x <;> rfl

theorem PResult.bind_ok_iff {α β : Type} {x : PResult α} {f : α → PResult β} {b : β} :
    PResult.bind x f = .ok b ↔ ∃ a, x = .ok a ∧ f a = .ok b := by
  cases x <;> simp [PResult.bind]

theorem PResult.bind_err_iff {α β : Type} {x : PResult α} {f : α → PResult β} {e : SVDError} :
    PResult.bind x f = .err e ↔ x = .err e ∨ ∃ a, x = .ok a ∧ f a = .err e := by
  cases x <;> simp [PResult.bind]

theorem PResult.map_ok_iff {α β : Type} {f : α → β} {x : PResult α} {b : β} :
    PResult.map f x = .ok b ↔ ∃ a, x = .ok a ∧ b = f a := by
  cases x with
  | ok a => simp [PResult.map]; exact ⟨fun h => h.symm, fun h => h.symm⟩
  | err e => simp [PResult.map]
  | panic m => simp [PResult.map]

theorem PResult.context_ok_iff {α : Type} {x : PResult α} {k : SVDErrorKind} {a : α} :
    x.context k = .ok a ↔ x = .ok a := by
  cases x <;> simp [PResult.context]

theorem PResult.context_err_iff {α : Type} {x : PResult α} {k : SVDErrorKind} {e : SVDError} :
    x.context k = .err e ↔ ∃ c, x = .err c ∧ e = .withCtx k c := by
  cases x <;> simp [PResult.context]
  exact ⟨fun h => h.symm, fun h => h.symm⟩

theorem PResult.expectP_ok_iff {α : Type} {x : PResult α} {m : String} {a : α} :
    x.expectP m = .ok a ↔ x = .ok a := by
  cases x <;> simp [PResult.expectP]

theorem PResult.expectP_ne_err {α : Type} (x : PResult α) (m : String) (e : SVDError) :
    x.expectP m ≠ .err e := by
  cases x <;> simp [PResult.expectP]

theorem PResult.unwrapP_ne_err {α : Type} (x : PResult α) (e : SVDError) :
    x.unwrapP ≠ .err e :=
  PResult.expectP_ne_err x _ e

theorem optExpect_ok_iff {α : Type} {o : Option α} {m : String} {a : α} :
    optExpect o m = .ok a ↔ o = some a := by
  cases o <;> simp [optExpect]

theorem optExpect_ne_err {α : Type} (o : Option α) (m : String) (e : SVDError) :
    optExpect o m ≠ .err e := by
  cases o <;> simp [optExpect]

theorem optTryU32_ne_err (tree : Element) (k m : String) (e : SVDError) :
    optTryU32 tree k m ≠ .err e := by
  unfold optTryU32
  cases tree.get_child k with
  | none => simp
  | some t =>
    cases h : (parse.u32 t).expectP m with
    | ok a => simp [PResult.map, h]
    | err e2 => exact absurd h (PResult.expectP_ne_err _ _ _)
    | panic m2 => simp [PResult.map, h]

theorem mapPM_nil {α β : Type} (f : α → PResult β) : mapPM f [] = .ok [] := rfl

theorem mapPM_cons {α β : Type} (f : α → PResult β) (a : α) (rest : List α) :
    mapPM f (a :: rest) =
      PResult.bind (f a) (fun b => PResult.bind (mapPM f rest) (fun bs => .ok (b :: bs))) := rfl

theorem mapPM_ok_length {α β : Type} {f : α → PResult β} :
    ∀ {xs : List α} {ys : List β}, mapPM f xs = .ok ys → xs.length = ys.length := by
  intro xs
  induction xs with
  | nil => intro ys h; simp [mapPM_nil] at h; subst h; rfl
  | cons a rest ih =>
    intro ys h
    rw [mapPM_cons, PResult.bind_ok_iff] at h
    obtain ⟨b, hb, h2⟩ := h
    rw [PResult.bind_ok_iff] at h2
    obtain ⟨bs, hbs, h3⟩ := h2
    cases h3
    simpa using ih hbs

theorem mapPM_ok_get {α β : Type} {f : α → PResult β} :
    ∀ {xs : List α} {ys : List β}, mapPM f xs = .ok ys →
      ∀ (i : Nat) (h1 : i < xs.length) (h2 : i < ys.length),
        f (xs.get ⟨i, h1⟩) = .ok (ys.get ⟨i, h2⟩) := by
  intro xs
  induction xs with
  | nil => intro ys h i h1 h2; exact absurd h1 (by simp)
  | cons a rest ih =>
    intro ys h i h1 h2
    rw [mapPM_cons, PResult.bind_ok_iff] at h
    obtain ⟨b, hb, h3⟩ := h
    rw [PResult.bind_ok_iff] at h3
    obtain ⟨bs, hbs, h4⟩ := h3
    cases h4
    cases i with
    | zero => simpa using hb
    | succ j => exact ih hbs j (by simpa using h1) (by simpa using h2)

theorem mapPM_ok_mem {α β : Type} {f : α → PResult β} :
    ∀ {xs : List α} {ys : List β}, mapPM f xs = .ok ys →
      ∀ x ∈ xs, ∃ y, f x = .ok y := by
  intro xs
  induction xs with
  | nil => intro ys _ x hx; exact absurd hx (by simp)
  | cons a rest ih =>
    intro ys h x hx
    rw [mapPM_cons, PResult.bind_ok_iff] at h
    obtain ⟨b, hb, h3⟩ := h
    rw [PResult.bind_ok_iff] at h3
    obtain ⟨bs, hbs, _⟩ := h3
    rcases List.mem_cons.mp hx with rfl | hmem
    · exact ⟨b, hb⟩
    · exact ih hbs x hmem

/-- The fused recursion core for a cluster's children computes exactly the
source's filter-then-dispatch traversal. -/
theorem crFilteredCore_eq (es : List Element) :
    crFilteredCore es = mapPM cluster_register_parse (rcFilter es) := by
  induction es with
  | nil => rfl
  | cons c rest ih =>
    by_cases h1 : c.name = "register"
    · have hb : (c.name == "register" || c.name == "cluster") = true := by simp [h1]
      simp only [crFilteredCore, rcFilter, List.filter_cons, hb, if_pos h1, ih,
        mapPM_cons, cluster_register_parse, if_pos h1, ite_true]
      rfl
    · by_cases h2 : c.name = "cluster"
      · have hb : (c.name == "register" || c.name == "cluster") = true := by simp [h2]
        simp only [crFilteredCore, rcFilter, List.filter_cons, hb, if_neg h1, if_pos h2, ih,
          mapPM_cons, cluster_register_parse, ite_true]
        rfl
      · have hb : (c.name == "register" || c.name == "cluster") = false := by
          simp [h1, h2]
        simp only [crFilteredCore, rcFilter, List.filter_cons, hb, if_neg h1, if_neg h2, ih]
        rfl

/-- `Cluster::parse` unfolded to the source's shape: tag assertion, then
`ClusterInfo::parse`, then the `dimIncrement` array logic with its
assertion checks. -/
theorem Cluster.parse_unfold (tree : Element) :
    Cluster.parse tree =
      (if tree.name ≠ "cluster" then .panic "assertion failed: tree.name == cluster" else
        PResult.bind (ClusterInfo.parse tree) (fun info =>
          if (tree.get_child "dimIncrement").isSome then
            PResult.bind (RegisterClusterArrayInfo.parse tree) (fun array_info =>
              if containsPctS info.name then
                match array_info.dim_index with
                | some indices =>
                  if array_info.dim = indices.length then
                    .ok (ClusterVariant.Array info array_info)
                  else .panic "assertion failed: array_info.dim == indices.len()"
                | none => .ok (ClusterVariant.Array info array_info)
              else .panic "assertion failed: info.name.contains(%s)")
          else .ok (ClusterVariant.Single info))) := by
  cases tree with
  | mk n attrs ch tx =>
    show clusterParseCore (Element.mk n attrs ch tx) = _
    simp only [clusterParseCore, ClusterInfo.parse, crFilteredCore_eq, bindEq, pureEq,
      Element.children, PResult.bind_assoc, PResult.ok_bind]

/-- Option.or stated for `List.find?` over an append. -/
theorem findQAppend {α : Type} (p : α → Bool) (l1 l2 : List α) :
    List.find? p (l1 ++ l2) = (List.find? p l1).or (List.find? p l2) := by
  induction l1 with
  | nil => simp
  | cons a t ih =>
    by_cases h : p a
    · simp [List.find?_cons, h]
    · simp [List.find?_cons, h, ih]

theorem appendChild_get_child (t extra : Element) (k : String) (h : extra.name ≠ k) :
    (appendChild t extra).get_child k = t.get_child k := by
  have hb : (extra.name == k) = false := by simp [h]
  simp [appendChild, Element.get_child, Element.children, findQAppend, List.find?_cons, hb]

/-- What a successful `RegisterInfo::_parse` says about the `fields`
member: present `<fields>` children are dispatched in order, an absent
`<fields>` node yields `None`. -/
theorem registerInfoParse_fields {tree : Element} {n : String} {info : RegisterInfo}
    (h : RegisterInfo._parse tree n = .ok info) :
    (∀ fEl, tree.get_child "fields" = some fEl →
        ∃ fs, mapPM Field.parse fEl.children = .ok fs ∧ info.fields = some fs) ∧
    (tree.get_child "fields" = none → info.fields = none) := by
  simp only [RegisterInfo._parse, bindEq, pureEq, PResult.bind_ok_iff] at h
  obtain ⟨ag, h1, ar, h2, de, h3, ao, h4, sz, h5, ac, h6, rv, h7, rm, h8, hmatch⟩ := h
  constructor
  · intro fEl hf
    rw [hf] at hmatch
    simp only [PResult.bind_ok_iff, PResult.map_ok_iff] at hmatch
    obtain ⟨fv, ⟨fs, hfs, hv⟩, wc, hwc, hfin⟩ := hmatch
    cases hfin
    exact ⟨fs, hfs, by simp [hv]⟩
  · intro hf
    rw [hf] at hmatch
    simp only [PResult.ok_bind, PResult.bind_ok_iff] at hmatch
    obtain ⟨wc, hwc, hfin⟩ := hmatch
    cases hfin
    rfl

/-- What a successful `Peripheral::_parse` says about the `registers`
member: present `<registers>` children are dispatched in order, an absent
`<registers>` node yields `None`. -/
theorem peripheralParse_registers {tree : Element} {n : String} {p : Peripheral}
    (h : Peripheral._parse tree n = .ok p) :
    (∀ regs, tree.get_child "registers" = some regs →
        ∃ rs, mapPM cluster_register_parse regs.children = .ok rs ∧ p.registers = some rs) ∧
    (tree.get_child "registers" = none → p.registers = none) := by
  simp only [Peripheral._parse, bindEq, pureEq, PResult.bind_ok_iff] at h
  obtain ⟨gn, h1, de, h2, ba, h3, addr, h4, iv, h5, hmatch⟩ := h
  constructor
  · intro regs hr
    rw [hr] at hmatch
    simp only [PResult.bind_ok_iff, PResult.map_ok_iff] at hmatch
    obtain ⟨rv, ⟨rs, hrs, hv⟩, hfin⟩ := hmatch
    cases hfin
    exact ⟨rs, hrs, by simp [hv]⟩
  · intro hr
    rw [hr] at hmatch
    simp only [PResult.ok_bind] at hmatch
    cases hmatch
    rfl

/-- What a successful `ClusterInfo::parse` says about the child list: it
is the order-preserving dispatch of the filtered children. -/
theorem clusterInfoParse_children {tree : Element} {info : ClusterInfo}
    (h : ClusterInfo.parse tree = .ok info) :
    mapPM cluster_register_parse (rcFilter tree.children) = .ok info.children := by
  simp only [ClusterInfo.parse, bindEq, pureEq, PResult.bind_ok_iff] at h
  obtain ⟨nm, h1, de, h2, hs, h3, ao, h4, sz, h5, ac, h6, rv, h7, rm, h8, ch, h9, hfin⟩ := h
  cases hfin
  simpa [ClusterInfo.children] using h9

/-- `splitCL` never produces the empty list of pieces. -/
theorem splitCL_ne_nil (sep : Char) (cs : List Char) : splitCL sep cs ≠ [] := by
  induction cs with
  | nil => simp [splitCL]
  | cons c rest ih =>
    by_cases h : c = sep
    · simp [splitCL, h]
    · simp only [splitCL, if_neg h]
      cases hs : splitCL sep rest with
      | nil => simp
      | cons t ts => simp

/-- Splitting distributes over a separator occurrence. -/
theorem splitCL_append (sep : Char) (xs ys : List Char) :
    splitCL sep (xs ++ sep :: ys) = splitCL sep xs ++ splitCL sep ys := by
  induction xs with
  | nil => simp [splitCL]
  | cons c rest ih =>
    by_cases h : c = sep
    · simp [splitCL, h, ih]
    · cases hs : splitCL sep rest with
      | nil => exact absurd hs (splitCL_ne_nil sep rest)
      | cons t ts =>
        simp only [List.cons_append, splitCL, if_neg h, List.append_eq]
        rw [ih, hs]
        simp

/-! The claims. -/

/-- C1: `Peripheral::derive_from(self, other)` keeps `self`'s group name,
description and register list when set and falls back to `other`'s
otherwise, and takes `other`'s interrupt list exactly when `self`'s is
empty; on the concrete example the merged peripheral has
`group_name = some "g"`, `description = some "d"` and interrupts
`[I1]`. -/
theorem claim_C1 :
    (∀ p o : Peripheral,
      (∀ g, p.group_name = some g → (p.derive_from o).group_name = some g) ∧
      (p.group_name = none → (p.derive_from o).group_name = o.group_name) ∧
      (∀ d, p.description = some d → (p.derive_from o).description = some d) ∧
      (p.description = none → (p.derive_from o).description = o.description) ∧
      (∀ rs, p.registers = some rs → (p.derive_from o).registers = some rs) ∧
      (p.registers = none → (p.derive_from o).registers = o.registers) ∧
      (p.interrupt = [] → (p.derive_from o).interrupt = o.interrupt) ∧
      (p.interrupt ≠ [] → (p.derive_from o).interrupt = p.interrupt)) ∧
    ((periphA.derive_from periphB).group_name = some "g" ∧
     (periphA.derive_from periphB).description = some "d" ∧
     (periphA.derive_from periphB).interrupt = [intI1]) := by
  constructor
  · intro p o
    refine ⟨?_, ?_, ?_, ?_, ?_, ?_, ?_, ?_⟩
    · intro g hg; simp [Peripheral.derive_from, optOr, hg]
    · intro hg; simp [Peripheral.derive_from, optOr, hg]
    · intro d hd; simp [Peripheral.derive_from, optOr, hd]
    · intro hd; simp [Peripheral.derive_from, optOr, hd]
    · intro rs hr; simp [Peripheral.derive_from, optOr, hr]
    · intro hr; simp [Peripheral.derive_from, optOr, hr]
    · intro hi; simp [Peripheral.derive_from, hi]
    · intro hi; simp [Peripheral.derive_from, hi]
  · exact ⟨rfl, rfl, rfl⟩

theorem claim_C1_witness :
    (periphA.derive_from periphB).group_name = periphB.group_name ∧
    (periphA.derive_from periphB).description = some "d" ∧
    (periphA.derive_from periphB).interrupt = periphB.interrupt :=
  ⟨(claim_C1.1 periphA periphB).2.1 rfl,
   (claim_C1.1 periphA periphB).2.2.1 "d" rfl,
   (claim_C1.1 periphA periphB).2.2.2.2.2.2.1 rfl⟩

/-- C3: `dimIndex` text splits on commas, a token `a-b` expands to the
inclusive range rendered as strings, other tokens stand literally:
`"0,1,2"`, `"A-C"` and `"0,2-4,X"` expand as the spec states, and the
decoding distributes over a comma. -/
theorem claim_C3 :
    parse.dim_index "0,1,2" = ["0", "1", "2"] ∧
    parse.dim_index "A-C" = ["A", "B", "C"] ∧
    parse.dim_index "0,2-4,X" = ["0", "2", "3", "4", "X"] ∧
    (∀ a b : String,
      parse.dim_index (a ++ "," ++ b) = parse.dim_index a ++ parse.dim_index b) := by
  refine ⟨by decide, by decide, by decide, ?_⟩
  intro a b
  show ((splitCL ',' (a ++ "," ++ b).data).map expandTok).flatten = _
  have hdata : (a ++ "," ++ b).data = a.data ++ ',' :: b.data := by
    simp [String.data_append]
  rw [hdata, splitCL_append, List.map_append, List.flatten_append]
  rfl

/-- C7: a `<peripheral>` node with no `<name>` child makes
`Peripheral::parse` return (not panic) a missing-tag error carrying the
tag name `"name"` and the peripheral node itself. -/
theorem claim_C7 (tree : Element) (h1 : tree.name = "peripheral")
    (h2 : tree.get_child "name" = none) :
    Peripheral.parse tree = .err (.fromKind (.missingTag tree "name")) := by
  unfold Peripheral.parse
  rw [if_neg (by simp [h1])]
  have hname : tree.get_child_text "name" = .err (.fromKind (.missingTag tree "name")) := by
    unfold Element.get_child_text Element.get_child_text_opt
    rw [h2]
    rfl
  simp [bindEq, hname, PResult.bind]

theorem claim_C7_witness :
    Peripheral.parse periphNoNameE = .err (.fromKind (.missingTag periphNoNameE "name")) :=
  claim_C7 periphNoNameE rfl rfl

/-- C9: parsing is deterministic: the top-level entry point applied twice
to the same materialized input buffer yields structurally equal
results. -/
theorem claim_C9 : ∀ xml : Option Element, parse xml = parse xml :=
  fun _ => rfl

/-- C2: whenever a register or cluster node with a `dimIncrement` child
parses successfully, the result is the Array variant, its name contains
the `%s` placeholder, and a present index-label list has exactly `dim`
entries — a violating input is never returned as a success. -/
theorem claim_C2 :
    (∀ (tree : Element) (r : Register),
      (tree.get_child "dimIncrement").isSome = true →
      Register.parse tree = .ok r →
      ∃ info array_info, r = Register.Array info array_info ∧
        containsPctS info.name = true ∧
        ∀ indices, array_info.dim_index = some indices →
          array_info.dim = indices.length) ∧
    (∀ (tree : Element) (c : Cluster),
      (tree.get_child "dimIncrement").isSome = true →
      Cluster.parse tree = .ok c →
      ∃ info array_info, c = ClusterVariant.Array info array_info ∧
        containsPctS info.name = true ∧
        ∀ indices, array_info.dim_index = some indices →
          array_info.dim = indices.length) := by
  constructor
  · intro tree r hdim hok
    unfold Register.parse at hok
    by_cases hname : tree.name = "register"
    · rw [if_neg (by simp [hname])] at hok
      simp only [bindEq, pureEq] at hok
      rw [PResult.bind_ok_iff] at hok
      obtain ⟨info, hinfo, hrest⟩ := hok
      rw [if_pos hdim] at hrest
      rw [PResult.bind_ok_iff] at hrest
      obtain ⟨ai, hai, hrest2⟩ := hrest
      by_cases hcps : containsPctS info.name = true
      · rw [if_pos hcps] at hrest2
        cases hdi : ai.dim_index with
        | none =>
          rw [hdi] at hrest2
          have h2 : PResult.ok (Register.Array info ai) = PResult.ok r := hrest2
          cases h2
          exact ⟨info, ai, rfl, hcps, fun idx hidx => by rw [hdi] at hidx; cases hidx⟩
        | some indices =>
          rw [hdi] at hrest2
          have h2 : (if ai.dim = indices.length then PResult.ok (Register.Array info ai)
              else PResult.panic "assertion failed: array_info.dim == indices.len()") =
              PResult.ok r := hrest2
          by_cases hlen : ai.dim = indices.length
          · rw [if_pos hlen] at h2
            cases h2
            refine ⟨info, ai, rfl, hcps, ?_⟩
            intro idx hidx
            rw [hdi] at hidx
            cases hidx
            exact hlen
          · rw [if_neg hlen] at h2
            exact absurd h2 (by simp)
      · rw [if_neg hcps] at hrest2; exact absurd hrest2 (by simp)
    · rw [if_pos (by simp [hname])] at hok; exact absurd hok (by simp)
  · intro tree c hdim hok
    rw [Cluster.parse_unfold] at hok
    by_cases hname : tree.name = "cluster"
    · rw [if_neg (by simp [hname])] at hok
      rw [PResult.bind_ok_iff] at hok
      obtain ⟨info, hinfo, hrest⟩ := hok
      rw [if_pos hdim] at hrest
      rw [PResult.bind_ok_iff] at hrest
      obtain ⟨ai, hai, hrest2⟩ := hrest
      by_cases hcps : containsPctS info.name = true
      · rw [if_pos hcps] at hrest2
        cases hdi : ai.dim_index with
        | none =>
          rw [hdi] at hrest2
          have h2 : PResult.ok (ClusterVariant.Array info ai) = PResult.ok c := hrest2
          cases h2
          exact ⟨info, ai, rfl, hcps, fun idx hidx => by rw [hdi] at hidx; cases hidx⟩
        | some indices =>
          rw [hdi] at hrest2
          have h2 : (if ai.dim = indices.length then PResult.ok (ClusterVariant.Array info ai)
              else PResult.panic "assertion failed: array_info.dim == indices.len()") =
              PResult.ok c := hrest2
          by_cases hlen : ai.dim = indices.length
          · rw [if_pos hlen] at h2
            cases h2
            refine ⟨info, ai, rfl, hcps, ?_⟩
            intro idx hidx
            rw [hdi] at hidx
            cases hidx
            exact hlen
          · rw [if_neg hlen] at h2
            exact absurd h2 (by simp)
      · rw [if_neg hcps] at hrest2; exact absurd hrest2 (by simp)
    · rw [if_pos (by simp [hname])] at hok; exact absurd hok (by simp)

theorem claim_C2_witness :
    (∃ info array_info, regArrV = Register.Array info array_info ∧
      containsPctS info.name = true ∧
      ∀ indices, array_info.dim_index = some indices →
        array_info.dim = indices.length) ∧
    (∃ info array_info, cluArrV = ClusterVariant.Array info array_info ∧
      containsPctS info.name = true ∧
      ∀ indices, array_info.dim_index = some indices →
        array_info.dim = indices.length) :=
  ⟨claim_C2.1 regArrE regArrV rfl rfl, claim_C2.2 cluArrE cluArrV rfl rfl⟩

/-- C4: a present-but-empty `<fields>` child yields `fields = some []`
while an absent `<fields>` child yields `fields = none`, and the two
outcomes are distinguishable. -/
theorem claim_C4 :
    (∀ (tree : Element) (n : String) (info : RegisterInfo) (fEl : Element),
      tree.get_child "fields" = some fEl → fEl.children = [] →
      RegisterInfo._parse tree n = .ok info → info.fields = some []) ∧
    (∀ (tree : Element) (n : String) (info : RegisterInfo),
      tree.get_child "fields" = none →
      RegisterInfo._parse tree n = .ok info → info.fields = none) ∧
    (some ([] : List Field) ≠ (none : Option (List Field))) := by
  refine ⟨?_, ?_, by simp⟩
  · intro tree n info fEl hf hempty hok
    obtain ⟨hsome, _⟩ := registerInfoParse_fields hok
    obtain ⟨fs, hfs, hv⟩ := hsome fEl hf
    rw [hempty, mapPM_nil] at hfs
    cases hfs
    exact hv
  · intro tree n info hf hok
    exact (registerInfoParse_fields hok).2 hf

theorem claim_C4_witness :
    regFieldsEmptyV.fields = some [] ∧ regNoFieldsV.fields = none :=
  ⟨claim_C4.1 regFieldsEmptyE "R" regFieldsEmptyV (Element.mk "fields" [] [] none) rfl rfl rfl,
   claim_C4.2.1 regNoFieldsE "R" regNoFieldsV rfl rfl⟩

/-- C5 counterexample: `Defaults::parse` does not return a `Defaults`
value for every document root — a malformed `<size>` child makes it
panic through the `try!` macro (a process abort, not a success and not a
typed error). -/
theorem claim_C5_cex : Defaults.parse defBadRootE = .panic "lib.rs:473 parse::u32(t)" := rfl

/-- C5 (amended): `Defaults::parse` has no typed-error outcome, and when
the four optional children are absent it returns the all-`None`
defaults; a present child that fails to decode panics instead of
returning or propagating. -/
theorem claim_C5 :
    (∀ (tree : Element) (e : SVDError), Defaults.parse tree ≠ .err e) ∧
    (∀ tree : Element,
      tree.get_child "size" = none → tree.get_child "resetValue" = none →
      tree.get_child "resetMask" = none → tree.get_child "access" = none →
      Defaults.parse tree = .ok ⟨none, none, none, none⟩) := by
  constructor
  · intro tree e h
    simp only [Defaults.parse, bindEq, pureEq] at h
    rw [PResult.bind_err_iff] at h
    rcases h with h | ⟨a, _, h⟩
    · exact optTryU32_ne_err tree "size" _ e h
    rw [PResult.bind_err_iff] at h
    rcases h with h | ⟨b, _, h⟩
    · exact optTryU32_ne_err tree "resetValue" _ e h
    rw [PResult.bind_err_iff] at h
    rcases h with h | ⟨c, _, h⟩
    · exact optTryU32_ne_err tree "resetMask" _ e h
    rw [PResult.bind_err_iff] at h
    rcases h with h | ⟨d, _, h⟩
    · exact PResult.unwrapP_ne_err _ e h
    · exact absurd h (by simp)
  · intro tree h1 h2 h3 h4
    simp [Defaults.parse, bindEq, pureEq, optTryU32, parse.optional, h1, h2, h3, h4,
      PResult.unwrapP, PResult.expectP, PResult.bind]

theorem claim_C5_witness :
    Defaults.parse emptyRootE ≠ .err (.fromKind (.other "x")) ∧
    Defaults.parse emptyRootE = .ok ⟨none, none, none, none⟩ :=
  ⟨claim_C5.1 emptyRootE (.fromKind (.other "x")), claim_C5.2 emptyRootE rfl rfl rfl rfl⟩

/-- C6 counterexample: a malformed `<baseAddress>` leaf does not produce
a context-wrapped typed error — `Peripheral::parse` panics through the
`try!` macro instead. -/
theorem claim_C6_cex : Peripheral.parse periphBadBaseE = .panic "lib.rs:185 parse::u32(...)" := rfl

/-- C6 (amended): every decode failure of the peripheral body that is
surfaced as a typed error is wrapped with the "In peripheral `<name>`"
context before being re-raised; a malformed `<baseAddress>` leaf however
panics through `try!` and never reaches the typed-error channel. -/
theorem claim_C6 (tree : Element) (n : String) (e : SVDError)
    (h1 : tree.name = "peripheral") (h2 : tree.get_child_text "name" = .ok n)
    (h3 : Peripheral.parse tree = .err e) :
    ∃ cause, e = .withCtx (.other ("In peripheral `" ++ n ++ "`")) cause := by
  unfold Peripheral.parse at h3
  rw [if_neg (by simp [h1])] at h3
  simp only [bindEq] at h3
  rw [h2, PResult.ok_bind] at h3
  rw [PResult.context_err_iff] at h3
  obtain ⟨c, _, hce⟩ := h3
  exact ⟨c, hce⟩

theorem claim_C6_witness :
    ∃ cause,
      SVDError.withCtx (.other "In peripheral `P`")
        (.fromKind (.emptyTag (Element.mk "groupName" [] [] none))) =
      SVDError.withCtx (.other ("In peripheral `" ++ "P" ++ "`")) cause :=
  claim_C6 periphGroupErrE "P"
    (SVDError.withCtx (.other "In peripheral `P`")
      (.fromKind (.emptyTag (Element.mk "groupName" [] [] none))))
    rfl rfl rfl

/-- C8: the produced register/cluster list preserves the document's
interleaving order exactly: for a cluster, the i-th produced entry is the
dispatch of the i-th register-or-cluster child, and for a peripheral's
`<registers>` container the i-th produced entry is the dispatch of the
i-th child. -/
theorem claim_C8 :
    (∀ (tree : Element) (info : ClusterInfo),
      ClusterInfo.parse tree = .ok info →
      (rcFilter tree.children).length = info.children.length ∧
      ∀ (i : Nat) (h1 : i < (rcFilter tree.children).length)
        (h2 : i < info.children.length),
        cluster_register_parse ((rcFilter tree.children).get ⟨i, h1⟩) =
          .ok (info.children.get ⟨i, h2⟩)) ∧
    (∀ (tree : Element) (n : String) (p : Peripheral) (regs : Element),
      Peripheral._parse tree n = .ok p → tree.get_child "registers" = some regs →
      ∃ rs, p.registers = some rs ∧ regs.children.length = rs.length ∧
        ∀ (i : Nat) (h1 : i < regs.children.length) (h2 : i < rs.length),
          cluster_register_parse (regs.children.get ⟨i, h1⟩) = .ok (rs.get ⟨i, h2⟩)) := by
  constructor
  · intro tree info hok
    have h := clusterInfoParse_children hok
    exact ⟨mapPM_ok_length h, fun i h1 h2 => mapPM_ok_get h i h1 h2⟩
  · intro tree n p regs hok hreg
    obtain ⟨rs, hrs, hv⟩ := (peripheralParse_registers hok).1 regs hreg
    exact ⟨rs, hv, mapPM_ok_length hrs, fun i h1 h2 => mapPM_ok_get hrs i h1 h2⟩

theorem claim_C8_witness :
    ((rcFilter cluC8E.children).length = cluC8V.children.length ∧
      ∀ (i : Nat) (h1 : i < (rcFilter cluC8E.children).length)
        (h2 : i < cluC8V.children.length),
        cluster_register_parse ((rcFilter cluC8E.children).get ⟨i, h1⟩) =
          .ok (cluC8V.children.get ⟨i, h2⟩)) ∧
    (∃ rs, periphC8V.registers = some rs ∧ regsC8E.children.length = rs.length ∧
      ∀ (i : Nat) (h1 : i < regsC8E.children.length) (h2 : i < rs.length),
        cluster_register_parse (regsC8E.children.get ⟨i, h1⟩) = .ok (rs.get ⟨i, h2⟩)) :=
  ⟨claim_C8.1 cluC8E cluC8V rfl, claim_C8.2 periphC8E "P" periphC8V regsC8E rfl rfl⟩

theorem get_child_text_opt_congr {t2 t : Element} {k : String}
    (h : t2.get_child k = t.get_child k) :
    t2.get_child_text_opt k = t.get_child_text_opt k := by
  unfold Element.get_child_text_opt
  rw [h]

theorem get_child_text_ok_congr {t2 t : Element} {k s : String}
    (h : t2.get_child k = t.get_child k) (hok : t.get_child_text k = .ok s) :
    t2.get_child_text k = .ok s := by
  unfold Element.get_child_text at hok ⊢
  simp only [bindEq, pureEq, PResult.bind_ok_iff] at hok ⊢
  obtain ⟨o, ho, harm⟩ := hok
  refine ⟨o, (get_child_text_opt_congr h).trans ho, ?_⟩
  cases o with
  | some v => exact harm
  | none => exact absurd harm (by simp)

theorem get_child_u32_ok_congr {t2 t : Element} {k : String} {v : Nat}
    (h : t2.get_child k = t.get_child k) (hok : parse.get_child_u32 k t = .ok v) :
    parse.get_child_u32 k t2 = .ok v := by
  unfold parse.get_child_u32 parse.get_child_elem at hok ⊢
  simp only [bindEq] at hok ⊢
  cases hc : t.get_child k with
  | none =>
    rw [hc] at hok
    have h2 : PResult.bind (PResult.err (.fromKind (.missingTag t k))) parse.u32 =
        .ok v := hok
    exact absurd h2 (by simp [PResult.bind])
  | some c =>
    rw [h, hc]
    rw [hc] at hok
    have h2 : PResult.bind (PResult.ok c) parse.u32 = .ok v := hok
    exact h2

theorem optTryU32_congr {t2 t : Element} {k m : String}
    (h : t2.get_child k = t.get_child k) :
    optTryU32 t2 k m = optTryU32 t k m := by
  unfold optTryU32
  rw [h]

theorem optional_congr {α : Type} {t2 t : Element} {k : String} {f : Element → PResult α}
    (h : t2.get_child k = t.get_child k) :
    parse.optional k t2 f = parse.optional k t f := by
  unfold parse.optional
  rw [h]

/-- C10: the containers treat unknown child tags asymmetrically — the
dispatcher panics with `unreachable!()` on any other tag; every child of
a successfully parsed `<registers>` container is register- or
cluster-tagged (so an offending child makes the whole peripheral parse
abort, concretely shown on `periphC10E`); a cluster, which filters before
dispatching, parses to the very same value when an unknown-tagged child
is appended. -/
theorem claim_C10 :
    (∀ e : Element, e.name ≠ "register" → e.name ≠ "cluster" →
      cluster_register_parse e = .panic unreachableMsg) ∧
    (∀ (tree : Element) (n : String) (p : Peripheral) (regs e2 : Element),
      Peripheral._parse tree n = .ok p → tree.get_child "registers" = some regs →
      e2 ∈ regs.children → e2.name = "register" ∨ e2.name = "cluster") ∧
    (Peripheral.parse periphC10E = .panic unreachableMsg) ∧
    (∀ (tree extra : Element) (info : ClusterInfo),
      extra.name ≠ "register" → extra.name ≠ "cluster" →
      extra.name ≠ "name" → extra.name ≠ "description" →
      extra.name ≠ "headerStructName" → extra.name ≠ "addressOffset" →
      extra.name ≠ "size" → extra.name ≠ "access" →
      extra.name ≠ "resetValue" → extra.name ≠ "resetMask" →
      ClusterInfo.parse tree = .ok info →
      ClusterInfo.parse (appendChild tree extra) = .ok info) := by
  refine ⟨?_, ?_, rfl, ?_⟩
  · intro e h1 h2
    unfold cluster_register_parse
    rw [if_neg h1, if_neg h2]
  · intro tree n p regs e2 hok hreg hmem
    obtain ⟨rs, hrs, _⟩ := (peripheralParse_registers hok).1 regs hreg
    obtain ⟨y, hy⟩ := mapPM_ok_mem hrs e2 hmem
    by_contra hcon
    push_neg at hcon
    have hpan : cluster_register_parse e2 = .panic unreachableMsg := by
      unfold cluster_register_parse
      rw [if_neg hcon.1, if_neg hcon.2]
    rw [hpan] at hy
    cases hy
  · intro tree extra info h1 h2 h3 h4 h5 h6 h7 h8 h9 h10 hok
    have gName := appendChild_get_child tree extra "name" h3
    have gDesc := appendChild_get_child tree extra "description" h4
    have gHsn := appendChild_get_child tree extra "headerStructName" h5
    have gAo := appendChild_get_child tree extra "addressOffset" h6
    have gSize := appendChild_get_child tree extra "size" h7
    have gAcc := appendChild_get_child tree extra "access" h8
    have gRv := appendChild_get_child tree extra "resetValue" h9
    have gRm := appendChild_get_child tree extra "resetMask" h10
    have gch : rcFilter (appendChild tree extra).children = rcFilter tree.children := by
      have hb : (extra.name == "register" || extra.name == "cluster") = false := by
        simp [h1, h2]
      simp [appendChild, Element.children, rcFilter, List.filter_append, hb]
    simp only [ClusterInfo.parse, bindEq, pureEq, PResult.bind_ok_iff] at hok ⊢
    obtain ⟨nm, k1, de, k2, hs, k3, ao, k4, sz, k5, ac, k6, rv, k7, rm, k8, ch, k9,
      hfin⟩ := hok
    refine ⟨nm, get_child_text_ok_congr gName k1, de, get_child_text_ok_congr gDesc k2,
      hs, (get_child_text_opt_congr gHsn).trans k3, ao, get_child_u32_ok_congr gAo k4,
      sz, (optTryU32_congr gSize).trans k5, ac, (optional_congr gAcc).trans k6,
      rv, (optional_congr gRv).trans k7, rm, (optional_congr gRm).trans k8,
      ch, ?_, hfin⟩
    rw [gch]
    exact k9

theorem claim_C10_witness :
    cluster_register_parse fooE = .panic unreachableMsg ∧
    (regNoFieldsE.name = "register" ∨ regNoFieldsE.name = "cluster") ∧
    ClusterInfo.parse (appendChild cluC8E fooE) = .ok cluC8V :=
  ⟨claim_C10.1 fooE (by decide) (by decide),
   claim_C10.2.1 periphC8E "P" periphC8V regsC8E regNoFieldsE rfl rfl
     (List.mem_cons_self regNoFieldsE [cluSimpleE]),
   claim_C10.2.2.2 cluC8E fooE cluC8V (by decide) (by decide) (by decide) (by decide)
     (by decide) (by decide) (by decide) (by decide) (by decide) (by decide) rfl⟩

end Svd
